import Mathlib

/-!
Shallow embedding of the `Tile` entity of the harp.gl mapview core
(`src/unnamed/part_000`): its visibility bookkeeping, resource ledger,
label collections, decoded-content handling and disposal protocol.

External collaborators (THREE.js objects and materials, the decode
pipeline, the pick handler) are modelled abstractly: textures carry a
numeric id, materials expose the list of texture-valued own properties,
renderable objects form trees with a visibility flag.  All state-changing
methods of `Tile` become pure functions `Tile → Tile`; the texture
`dispose()` calls emitted by `clear()`/`dispose()` are modelled as an
explicit list of disposed texture ids.
-/

/-- Minimum estimated size of a small JS object (16 bytes). -/
def MINIMUM_SMALL_OBJECT_SIZE_ESTIMATION : Nat := 16

/-- Minimum estimated size of a JS object (100 bytes). -/
def MINIMUM_OBJECT_SIZE_ESTIMATION : Nat := 100

/-- `RoadIntersectionData`: road data for picking, stored verbatim on the
tile.  Element contents of the arrays are irrelevant to the size
computation, so entries are numeric stand-ins.  `ids` and `objInfos` keep
the `undefined` possibility (`Option`) that the size computation checks. -/
structure RoadIntersectionData where
  ids : Option (List (Option Nat))
  techniqueIndex : List Nat
  starts : List Nat
  widths : List Nat
  positions : List Nat
  techniques : List Nat
  objInfos : Option (List (Option Nat))
  deriving DecidableEq

/-- `getRoadIntersectionDataSize`: memory footprint of `RoadIntersectionData`,
accumulator style exactly as in the source. -/
def getRoadIntersectionDataSize (intersectionData : RoadIntersectionData) : Nat :=
  let numBytes := MINIMUM_OBJECT_SIZE_ESTIMATION
  -- 8 bytes per techniqueIndex, start, width and position; 100 per technique
  let bytesPerEntry := 8 + 8 + 8 + 8 + MINIMUM_OBJECT_SIZE_ESTIMATION
  let numEntries := intersectionData.techniqueIndex.length
  let numBytes := numBytes + intersectionData.techniqueIndex.length * bytesPerEntry
  let numBytes :=
    if intersectionData.ids.isSome then numBytes + numEntries * 8 else numBytes
  let numBytes :=
    if intersectionData.objInfos.isSome then
      numBytes + numEntries * MINIMUM_SMALL_OBJECT_SIZE_ESTIMATION
    else numBytes
  numBytes

/-- A THREE.Material, abstracted to the texture-valued own properties that
`disposeMaterial` scans (texture ids). -/
structure Material where
  textures : List Nat
  deriving DecidableEq

/-- The `material` slot of a `TileObject`:
`THREE.Material[] | THREE.Material | undefined`. -/
inductive MaterialSlot where
  | undef : MaterialSlot
  | single : Material → MaterialSlot
  | array : List (Option Material) → MaterialSlot
  deriving DecidableEq

/-- A `TileObject` (THREE.Object3D): visibility flag, optional geometry,
material slot, children.  `estHeapSize`/`estGpuSize` are modelled from the
spec: `MapViewUtils.estimateObject3dSize` is not under src/; the
ResourceEstimator abstraction contributes an opaque per-object heap/GPU
estimate, accumulated for every traversed object. -/
inductive TObj where
  | mk : (visible : Bool) → (geometry : Option Nat) → (material : MaterialSlot) →
      (estHeapSize : Nat) → (estGpuSize : Nat) → (children : List TObj) → TObj

def TObj.visible : TObj → Bool
  | .mk v _ _ _ _ _ => v

def TObj.geometry : TObj → Option Nat
  | .mk _ g _ _ _ _ => g

def TObj.material : TObj → MaterialSlot
  | .mk _ _ m _ _ _ => m

def TObj.estHeapSize : TObj → Nat
  | .mk _ _ _ h _ _ => h

def TObj.estGpuSize : TObj → Nat
  | .mk _ _ _ _ g _ => g

def TObj.children : TObj → List TObj
  | .mk _ _ _ _ _ cs => cs

mutual

/-- `Object3D.traverse` visits the object itself and, recursively, all of
its descendants. -/
def TObj.traverse : TObj → List TObj
  | .mk v g m eh eg cs => .mk v g m eh eg cs :: TObj.traverseList cs

/-- Traversal of a list of children, concatenating each child's traversal. -/
def TObj.traverseList : List TObj → List TObj
  | [] => []
  | o :: os => TObj.traverse o ++ TObj.traverseList os

end

/-- A `TextElement`, abstracted to its identity and its (mutable in the
source) `priority` value.  Priority mutation is modelled by presenting a
value with the same `id` and a different `priority`. -/
structure TextElement where
  id : Nat
  priority : Int
  deriving DecidableEq

/-- Modelled from the spec: `GroupedPriorityList` lives in
`@here/harp-utils`, which is not under src/.  The spec describes it as a
map from priority key to an ordered sequence of elements: `add` appends to
the group bucket, creating the bucket if absent; `remove` scans the group
keyed by the element's current priority for the element by identity,
returning `false` when it is not found; `clear` drops all groups. -/
structure GroupedPriorityList where
  groups : List (Int × List Nat)
  deriving DecidableEq

/-- Append an element id to the bucket of its priority, creating the
bucket at the end when absent. -/
def addToGroups : List (Int × List Nat) → Int → Nat → List (Int × List Nat)
  | [], p, i => [(p, [i])]
  | g :: gs, p, i =>
    if g.1 = p then (g.1, g.2 ++ [i]) :: gs else g :: addToGroups gs p i

/-- Look up the bucket of a priority key. -/
def findGroup : List (Int × List Nat) → Int → Option (List Nat)
  | [], _ => none
  | g :: gs, p => if g.1 = p then some g.2 else findGroup gs p

/-- Remove an element id from the bucket of a priority key; report whether
it was found. -/
def removeFromGroups : List (Int × List Nat) → Int → Nat → Bool × List (Int × List Nat)
  | [], _, _ => (false, [])
  | g :: gs, p, i =>
    if g.1 = p then
      if i ∈ g.2 then (true, (g.1, g.2.erase i) :: gs) else (false, g :: gs)
    else
      let r := removeFromGroups gs p i
      (r.1, g :: r.2)

def GroupedPriorityList.add (l : GroupedPriorityList) (e : TextElement) :
    GroupedPriorityList :=
  ⟨addToGroups l.groups e.priority e.id⟩

def GroupedPriorityList.remove (l : GroupedPriorityList) (e : TextElement) :
    Bool × GroupedPriorityList :=
  let r := removeFromGroups l.groups e.priority e.id
  (r.1, ⟨r.2⟩)

def GroupedPriorityList.clearAll (_l : GroupedPriorityList) : GroupedPriorityList :=
  ⟨[]⟩

/-- Total number of elements over all priority groups (the iteration
`for group of groups: numTextElements += group[1].elements.length`). -/
def GroupedPriorityList.numElements (l : GroupedPriorityList) : Nat :=
  (l.groups.map (fun g => g.2.length)).sum

/-- A `DecodedTile`, abstracted to the fields `Tile` consumes: the
optional tighter bounding box (a world-box stand-in), the optional
`tileInfo` (abstracted to its `numBytes`), and the optional decode-time
metric forwarded to the external statistics sink. -/
structure DecodedTile where
  boundingBox : Option Nat
  tileInfo : Option Nat
  decodeTime : Option Nat
  deriving DecidableEq

/-- A default empty `DecodedTile`, for tiles that must be rendered but do
not have any objects. -/
def defaultEmptyDecodedTile : DecodedTile :=
  { boundingBox := none, tileInfo := none, decodeTime := none }

/-- The `TileGeometryLoader` collaborator, abstracted to the three flags
`Tile` consults. -/
structure TileGeometryLoader where
  basicGeometryLoaded : Bool
  allGeometryLoaded : Bool
  isFinished : Bool
  deriving DecidableEq

/-- `TileResourceInfo`: the resource ledger snapshot. -/
structure TileResourceInfo where
  heapSize : Nat
  gpuSize : Nat
  num3dObjects : Nat
  numTextElements : Nat
  numUserTextElements : Nat
  deriving DecidableEq

/-- The `Tile` state.  World boxes are abstract ids (`Nat`); the loader
and extrusion-handler references are presence-only (`Option Unit`);
the owned-texture `WeakSet` is a list of texture ids used for membership. -/
structure Tile where
  objects : List TObj
  geoBox : Nat
  boundingBox : Nat
  roadIntersectionData : Option RoadIntersectionData
  frameNumLastRequested : Int
  frameNumVisible : Int
  frameNumLastVisible : Int
  numFramesVisible : Nat
  visibilityCounter : Int
  preparedTextPaths : Option (List Nat)
  m_disposed : Bool
  m_forceHasGeometry : Option Bool
  m_tileLoader : Option Unit
  m_decodedTile : Option DecodedTile
  m_tileGeometryLoader : Option TileGeometryLoader
  m_userTextElements : List Nat
  m_textElementGroups : GroupedPriorityList
  m_placedTextElements : GroupedPriorityList
  m_textElementsChanged : Bool
  m_resourceInfo : Option TileResourceInfo
  m_ownedTextures : List Nat
  m_animatedExtrusionTileHandler : Option Unit

/-- The `Tile` constructor: the geo box comes from the tiling scheme and
the world bounding box is its projection (`projection.projectBox`),
modelled as an abstract projection function on box ids.  All other fields
take their declared initial values. -/
def Tile.new (projectBox : Nat → Nat) (geoBox : Nat) : Tile :=
  { objects := []
    geoBox := geoBox
    boundingBox := projectBox geoBox
    roadIntersectionData := none
    frameNumLastRequested := -1
    frameNumVisible := -1
    frameNumLastVisible := -1
    numFramesVisible := 0
    visibilityCounter := -1
    preparedTextPaths := none
    m_disposed := false
    m_forceHasGeometry := none
    m_tileLoader := none
    m_decodedTile := none
    m_tileGeometryLoader := none
    m_userTextElements := []
    m_textElementGroups := ⟨[]⟩
    m_placedTextElements := ⟨[]⟩
    m_textElementsChanged := false
    m_resourceInfo := none
    m_ownedTextures := []
    m_animatedExtrusionTileHandler := none }

/-- `get isVisible()`: `frameNumLastRequested >= mapView.frameNumber - 1`.
The map view's current frame number is passed explicitly. -/
def Tile.isVisible (t : Tile) (frameNumber : Int) : Bool :=
  decide (t.frameNumLastRequested ≥ frameNumber - 1)

/-- `set isVisible(visible)`: stamp the current frame number, or the `-1`
sentinel. -/
def Tile.setIsVisible (t : Tile) (visible : Bool) (frameNumber : Int) : Tile :=
  { t with frameNumLastRequested := if visible then frameNumber else -1 }

/-- `invalidateResourceInfo()`. -/
def Tile.invalidateResourceInfo (t : Tile) : Tile :=
  { t with m_resourceInfo := none }

/-- `addOwnedTexture(texture)`: add to the owned-texture set. -/
def Tile.addOwnedTexture (t : Tile) (texture : Nat) : Tile :=
  { t with m_ownedTextures := t.m_ownedTextures ++ [texture] }

/-- `shouldDisposeTexture(texture)`: membership in the owned-texture set. -/
def Tile.shouldDisposeTexture (t : Tile) (texture : Nat) : Bool :=
  decide (texture ∈ t.m_ownedTextures)

/-- `shouldDisposeObjectGeometry`: default `true`. -/
def Tile.shouldDisposeObjectGeometry (_t : Tile) (_object : TObj) : Bool :=
  true

/-- `shouldDisposeObjectMaterial`: default `true`. -/
def Tile.shouldDisposeObjectMaterial (_t : Tile) (_object : TObj) : Bool :=
  true

/-- `addUserTextElement(textElement)`. -/
def Tile.addUserTextElement (t : Tile) (textElement : TextElement) : Tile :=
  { t with
    m_userTextElements := t.m_userTextElements ++ [textElement.id]
    m_textElementsChanged := true }

/-- `addTextElement(textElement)`. -/
def Tile.addTextElement (t : Tile) (textElement : TextElement) : Tile :=
  { t with
    m_textElementGroups := t.m_textElementGroups.add textElement
    m_textElementsChanged := true }

/-- `removeTextElement(textElement)`: sets the changed flag and returns
`true` only when the grouped list actually removed the element. -/
def Tile.removeTextElement (t : Tile) (textElement : TextElement) : Tile × Bool :=
  match t.m_textElementGroups.remove textElement with
  | (true, groups) =>
    ({ t with m_textElementGroups := groups, m_textElementsChanged := true }, true)
  | (false, _) => (t, false)

/-- `computeResourceInfo()`: recompute the ledger from the current state. -/
def Tile.computeResourceInfo (t : Tile) : TileResourceInfo :=
  let num3dObjects := (t.objects.filter (fun o => o.visible)).length
  let aggregatedHeapSize := (t.objects.map TObj.estHeapSize).sum
  let aggregatedGpuSize := (t.objects.map TObj.estGpuSize).sum
  let numTextElements := t.m_textElementGroups.numElements
  let numUserTextElements := t.m_userTextElements.length
  let heapSize := (numTextElements + numUserTextElements) * 312
  let aggregatedHeapSize := aggregatedHeapSize +
    (match t.m_decodedTile with
     | some d => (match d.tileInfo with | some numBytes => numBytes | none => 0)
     | none => 0)
  let heapSize := heapSize +
    (match t.roadIntersectionData with
     | some r => getRoadIntersectionDataSize r
     | none => 0)
  { heapSize := aggregatedHeapSize + heapSize
    gpuSize := aggregatedGpuSize
    num3dObjects := num3dObjects
    numTextElements := numTextElements
    numUserTextElements := numUserTextElements }

/-- `getResourceInfo()`: return the cached ledger, computing it first when
invalidated; also returns the updated tile (the cache write). -/
def Tile.getResourceInfo (t : Tile) : TileResourceInfo × Tile :=
  match t.m_resourceInfo with
  | some info => (info, t)
  | none =>
    let info := t.computeResourceInfo
    (info, { t with m_resourceInfo := some info })

/-- `prepareTileInfo()`: store the pick handler's road-intersection record
when the tile has decoded content with tile info, is not disposed and is
visible.  The pick handler is external; its result is a parameter. -/
def Tile.prepareTileInfo (t : Tile) (frameNumber : Int)
    (registerResult : RoadIntersectionData) : Tile :=
  if t.m_decodedTile.isNone || t.m_disposed || !(t.isVisible frameNumber) then t
  else
    match t.m_decodedTile with
    | some d =>
      if d.tileInfo.isSome then { t with roadIntersectionData := some registerResult }
      else t
    | none => t

/-- `setDecodedTile(decodedTile)`: store the reference, take the decoder's
bounding box when provided, invalidate the ledger (the decode-time metric
goes to an external statistics sink and has no tile state). -/
def Tile.setDecodedTile (t : Tile) (decodedTile : DecodedTile) : Tile :=
  let t := { t with m_decodedTile := some decodedTile }
  let t :=
    match decodedTile.boundingBox with
    | some b => { t with boundingBox := b }
    | none => t
  t.invalidateResourceInfo

/-- `removeDecodedTile()`. -/
def Tile.removeDecodedTile (t : Tile) : Tile :=
  Tile.invalidateResourceInfo { t with m_decodedTile := none }

/-- `get hasGeometry()`. -/
def Tile.hasGeometry (t : Tile) : Bool :=
  match t.m_forceHasGeometry with
  | none => decide (t.objects.length ≠ 0)
  | some v => v

/-- `forceHasGeometry(value)`. -/
def Tile.forceHasGeometry (t : Tile) (value : Bool) : Tile :=
  let t := if value then t.setDecodedTile defaultEmptyDecodedTile else t
  { t with m_forceHasGeometry := some value }

/-- `get basicGeometryLoaded()`. -/
def Tile.basicGeometryLoaded (t : Tile) : Bool :=
  match t.m_tileGeometryLoader with
  | none => t.hasGeometry
  | some g => g.basicGeometryLoaded || g.isFinished

/-- `get allGeometryLoaded()`. -/
def Tile.allGeometryLoaded (t : Tile) : Bool :=
  match t.m_tileGeometryLoader with
  | none => t.hasGeometry
  | some g => g.allGeometryLoaded || g.isFinished

/-- The texture `dispose()` calls `disposeMaterial` makes for one
material: every texture-valued property passing `shouldDisposeTexture`. -/
def Tile.disposeMaterialTextures (t : Tile) (m : Material) : List Nat :=
  m.textures.filter (fun texture => t.shouldDisposeTexture texture)

/-- The texture `dispose()` calls `disposeObject` makes for one object:
nothing when the material slot is `undefined` or
`shouldDisposeObjectMaterial` refuses; one pass per (defined) material
otherwise. -/
def Tile.disposeObjectTextures (t : Tile) (object : TObj) : List Nat :=
  if t.shouldDisposeObjectMaterial object then
    match object.material with
    | .undef => []
    | .single m => t.disposeMaterialTextures m
    | .array ms => (ms.filterMap id).flatMap (fun m => t.disposeMaterialTextures m)
  else []

/-- The texture `dispose()` calls `clear()` emits: for each root object,
`rootObject.traverse(disposeObject)` followed by the extra
`disposeObject(rootObject)` call of the source. -/
def Tile.clearTextureDisposals (t : Tile) : List Nat :=
  t.objects.flatMap (fun rootObject =>
    (rootObject.traverse.flatMap (fun o => t.disposeObjectTextures o)) ++
      t.disposeObjectTextures rootObject)

/-- The texture ids sitting in an object's material slot. -/
def objMatTextures (o : TObj) : List Nat :=
  match o.material with
  | .undef => []
  | .single m => m.textures
  | .array ms => (ms.filterMap id).flatMap Material.textures

/-- All texture ids reachable through the materials of the tile's objects
(and their descendants). -/
def Tile.reachableTextures (t : Tile) : List Nat :=
  t.objects.flatMap (fun rootObject => rootObject.traverse.flatMap objMatTextures)

/-- `clear()`, state part: empty the object list, reset prepared text
paths when present, clear both grouped label collections and the user
label list, invalidate the ledger.  (The extrusion-handler `dispose()`
call is external; the reference itself is kept, as in the source.) -/
def Tile.clear (t : Tile) : Tile :=
  { t with
    objects := []
    preparedTextPaths := match t.preparedTextPaths with
      | some _ => some []
      | none => none
    m_placedTextElements := t.m_placedTextElements.clearAll
    m_textElementGroups := t.m_textElementGroups.clearAll
    m_userTextElements := []
    m_resourceInfo := none }

/-- `dispose()`, state part: no-op when already disposed; otherwise cancel
and drop the loader handle, dispose and drop the geometry loader, `clear()`,
empty the user labels again, set the disposed flag and force
`frameNumLastRequested` to 0. -/
def Tile.dispose (t : Tile) : Tile :=
  if t.m_disposed then t
  else
    let t := { t with m_tileLoader := none }
    let t := { t with m_tileGeometryLoader := none }
    let t := t.clear
    let t := { t with m_userTextElements := [] }
    { t with m_disposed := true, frameNumLastRequested := 0 }

/-- The texture `dispose()` calls `dispose()` emits: none when already
disposed, those of `clear()` otherwise. -/
def Tile.disposeTextureDisposals (t : Tile) : List Nat :=
  if t.m_disposed then [] else t.clearTextureDisposals

/-! ## Sample states used by witnesses and counterexamples -/

/-- A freshly constructed tile with the identity box projection. -/
def sampleTile : Tile := Tile.new (fun b => b) 0

/-- A tile whose last request was stamped at frame 5. -/
def tileF5 : Tile := { sampleTile with frameNumLastRequested := 5 }

/-- Road data with no entries: its computed size is the 100-byte minimum. -/
def roadSample : RoadIntersectionData :=
  { ids := some []
    techniqueIndex := []
    starts := []
    widths := []
    positions := []
    techniques := []
    objInfos := none }

/-- A tile carrying road-intersection data. -/
def tileC2 : Tile := { sampleTile with roadIntersectionData := some roadSample }

/-- A visible tile holding decoded content whose tile info is 50 bytes. -/
def tileC4 : Tile :=
  { sampleTile with
    m_decodedTile := some { boundingBox := none, tileInfo := some 50, decodeTime := none }
    frameNumLastRequested := 10 }

/-- `tileC4` after caching the ledger and then receiving road data through
`prepareTileInfo` at frame 10. -/
def tileC4Stale : Tile := (tileC4.getResourceInfo.2).prepareTileInfo 10 roadSample

/-- A tile owning texture 3 whose single object carries textures 3 and 4. -/
def tileC5 : Tile :=
  { sampleTile with
    objects := [TObj.mk true none (.single ⟨[3, 4]⟩) 0 0 []]
    m_ownedTextures := [3] }

/-! ## Helper lemmas -/

/-- An object is the head of its own traversal. -/
lemma TObj.self_mem_traverse (o : TObj) : o ∈ o.traverse := by
  cases o
  simp [TObj.traverse]

/-- Splitting a list by a Boolean flag preserves total length. -/
lemma length_filter_visible (l : List TObj) :
    (l.filter (fun o => o.visible)).length + (l.filter (fun o => !o.visible)).length
      = l.length := by
  induction l with
  | nil => simp
  | cons o os ih => cases hv : o.visible <;> simp [hv] <;> omega

/-- When the ledger is invalidated, `getResourceInfo` recomputes it from
the current state. -/
lemma getResourceInfo_of_invalidated (t : Tile) (h : t.m_resourceInfo = none) :
    t.getResourceInfo.1 = t.computeResourceInfo := by
  simp [Tile.getResourceInfo, h]

/-- `disposeObjectTextures` keeps exactly the owned textures among the
object's material textures. -/
lemma mem_disposeObjectTextures (t : Tile) (o : TObj) (x : Nat) :
    x ∈ t.disposeObjectTextures o ↔ x ∈ t.m_ownedTextures ∧ x ∈ objMatTextures o := by
  cases hm : o.material <;>
    simp [Tile.disposeObjectTextures, Tile.shouldDisposeObjectMaterial,
      Tile.disposeMaterialTextures, Tile.shouldDisposeTexture, objMatTextures, hm,
      List.mem_flatMap, List.mem_filter] <;>
    tauto

/-- Membership for the textures `clear()` disposes: owned and reachable. -/
lemma mem_clearTextureDisposals (t : Tile) (x : Nat) :
    x ∈ t.clearTextureDisposals ↔ x ∈ t.m_ownedTextures ∧ x ∈ t.reachableTextures := by
  constructor
  · intro hx
    simp only [Tile.clearTextureDisposals, List.mem_flatMap, List.mem_append] at hx
    obtain ⟨root, hroot, hcase⟩ := hx
    rcases hcase with hin | hin
    · obtain ⟨o, ho, hxo⟩ := hin
      rw [mem_disposeObjectTextures] at hxo
      refine ⟨hxo.1, ?_⟩
      simp only [Tile.reachableTextures, List.mem_flatMap]
      exact ⟨root, hroot, o, ho, hxo.2⟩
    · rw [mem_disposeObjectTextures] at hin
      refine ⟨hin.1, ?_⟩
      simp only [Tile.reachableTextures, List.mem_flatMap]
      exact ⟨root, hroot, root, root.self_mem_traverse, hin.2⟩
  · rintro ⟨hown, hreach⟩
    simp only [Tile.reachableTextures, List.mem_flatMap] at hreach
    obtain ⟨root, hroot, o, ho, hxo⟩ := hreach
    simp only [Tile.clearTextureDisposals, List.mem_flatMap, List.mem_append]
    exact ⟨root, hroot, Or.inl ⟨o, ho, (mem_disposeObjectTextures t o x).2 ⟨hown, hxo⟩⟩⟩

/-- Adding under one priority key leaves the bucket of any other key
untouched. -/
lemma findGroup_addToGroups_ne (gs : List (Int × List Nat)) (p q : Int) (i : Nat)
    (h : q ≠ p) : findGroup (addToGroups gs p i) q = findGroup gs q := by
  induction gs with
  | nil => simp [addToGroups, findGroup, Ne.symm h]
  | cons g gs ih =>
    simp only [addToGroups]
    by_cases hg : g.1 = p
    · rw [if_pos hg]
      simp only [findGroup]
      rw [if_neg (by rw [hg]; exact Ne.symm h), if_neg (by rw [hg]; exact Ne.symm h)]
    · rw [if_neg hg]
      simp only [findGroup]
      by_cases hq : g.1 = q
      · rw [if_pos hq, if_pos hq]
      · rw [if_neg hq, if_neg hq]
        exact ih

/-- Removal misses when the element is not in the bucket of the key. -/
lemma removeFromGroups_not_found (gs : List (Int × List Nat)) (p : Int) (i : Nat)
    (h : ∀ ids, findGroup gs p = some ids → i ∉ ids) :
    removeFromGroups gs p i = (false, gs) := by
  induction gs with
  | nil => simp [removeFromGroups]
  | cons g gs ih =>
    simp only [removeFromGroups]
    by_cases hg : g.1 = p
    · rw [if_pos hg, if_neg (h g.2 (by simp [findGroup, hg]))]
    · rw [if_neg hg]
      have hrec := ih (fun ids hids => h ids (by simp [findGroup, hg, hids]))
      simp only [hrec]

/-! ## Claim theorems -/

/-- C1: for every frame number `f ≥ 0`, a tile with
`frameNumLastRequested = f` reports `isVisible = true` at frames `f` and
`f + 1`, and `isVisible = false` at every frame from `f + 2` onward. -/
theorem C1_isVisible_window (t : Tile) (f : Int) (hf : 0 ≤ f)
    (hreq : t.frameNumLastRequested = f) :
    t.isVisible f = true ∧ t.isVisible (f + 1) = true ∧
      ∀ c : Int, f + 2 ≤ c → t.isVisible c = false := by
  refine ⟨?_, ?_, fun c hc => ?_⟩ <;> simp [Tile.isVisible, hreq] <;> omega

/-- Witness for C1 at `f = 5`: visible at frames 5 and 6, invisible at 7. -/
theorem C1_witness :
    tileF5.isVisible 5 = true ∧ tileF5.isVisible (5 + 1) = true ∧
      tileF5.isVisible 7 = false :=
  ⟨(C1_isVisible_window tileF5 5 (by decide) rfl).1,
   (C1_isVisible_window tileF5 5 (by decide) rfl).2.1,
   (C1_isVisible_window tileF5 5 (by decide) rfl).2.2 7 (by decide)⟩

/-- C2 counterexample: the claim fails as stated.  A tile carrying road
data, once disposed, still holds the road-intersection record and its
recomputed ledger reports a non-zero heap size (dispose/clear never reset
`roadIntersectionData`). -/
theorem C2_counterexample :
    tileC2.dispose.m_disposed = true ∧
    ¬tileC2.dispose.roadIntersectionData = none ∧
    ¬tileC2.dispose.getResourceInfo.1.heapSize = 0 := by decide

/-- C2 (amended): once `dispose()` returns, the object sequence, the user
labels and both priority-grouped collections are empty, and the ledger
reports zero `num3dObjects`, `numTextElements`, `numUserTextElements` and
`gpuSize`; `heapSize` is zero only up to the residual decoded-tile-info
and road-intersection contributions, which `dispose()` does not clear. -/
theorem C2_dispose_empties (t : Tile) (h : t.m_disposed = false) :
    t.dispose.objects = [] ∧
    t.dispose.m_userTextElements = [] ∧
    t.dispose.m_textElementGroups.groups = [] ∧
    t.dispose.m_placedTextElements.groups = [] ∧
    t.dispose.getResourceInfo.1.num3dObjects = 0 ∧
    t.dispose.getResourceInfo.1.numTextElements = 0 ∧
    t.dispose.getResourceInfo.1.numUserTextElements = 0 ∧
    t.dispose.getResourceInfo.1.gpuSize = 0 ∧
    t.dispose.getResourceInfo.1.heapSize =
      (match t.m_decodedTile with
       | some d => (match d.tileInfo with | some numBytes => numBytes | none => 0)
       | none => 0) +
      (match t.roadIntersectionData with
       | some r => getRoadIntersectionDataSize r
       | none => 0) := by
  simp [Tile.dispose, h, Tile.clear, Tile.getResourceInfo, Tile.computeResourceInfo,
    GroupedPriorityList.clearAll, GroupedPriorityList.numElements]

/-- Witness for C2 (amended) on `tileC2`: all collections empty after
dispose, and the residual heap size is exactly the road-data footprint. -/
theorem C2_witness :
    tileC2.dispose.objects = [] ∧
    tileC2.dispose.getResourceInfo.1.num3dObjects = 0 ∧
    tileC2.dispose.getResourceInfo.1.heapSize =
      (match tileC2.m_decodedTile with
       | some d => (match d.tileInfo with | some numBytes => numBytes | none => 0)
       | none => 0) +
      (match tileC2.roadIntersectionData with
       | some r => getRoadIntersectionDataSize r
       | none => 0) :=
  ⟨(C2_dispose_empties tileC2 rfl).1,
   (C2_dispose_empties tileC2 rfl).2.2.2.2.1,
   (C2_dispose_empties tileC2 rfl).2.2.2.2.2.2.2.2⟩

/-- C3: `dispose()` is idempotent.  Disposing twice yields exactly the
state of disposing once, and the second call performs no mutation and
emits no texture disposal. -/
theorem C3_dispose_idempotent (t : Tile) :
    t.dispose.dispose = t.dispose ∧ t.dispose.disposeTextureDisposals = [] := by
  cases h : t.m_disposed <;>
    simp [Tile.dispose, Tile.clear, Tile.disposeTextureDisposals, h]

/-- C4 counterexample: the claim fails as stated.  On a visible tile with
decoded tile info, caching the ledger and then letting `prepareTileInfo`
assign road data leaves the cached ledger in place: `getResourceInfo`
returns the pre-mutation snapshot (heap 50) although recomputing from the
current state yields 150. -/
theorem C4_counterexample :
    tileC4Stale.roadIntersectionData = some roadSample ∧
    tileC4Stale.m_resourceInfo.isSome = true ∧
    tileC4Stale.getResourceInfo.1.heapSize = 50 ∧
    tileC4Stale.computeResourceInfo.heapSize = 150 := by decide

/-- C4 (amended): `setDecodedTile`, `removeDecodedTile` and `clear` mark
the ledger stale, so `getResourceInfo` issued after any of them returns
the ledger recomputed from the post-mutation state, never a pre-mutation
snapshot; the road-data assignment in `prepareTileInfo` does not
invalidate the ledger. -/
theorem C4_mutators_invalidate (t : Tile) (d : DecodedTile) :
    ((t.setDecodedTile d).m_resourceInfo = none ∧
     t.removeDecodedTile.m_resourceInfo = none ∧
     t.clear.m_resourceInfo = none) ∧
    ((t.setDecodedTile d).getResourceInfo.1 = (t.setDecodedTile d).computeResourceInfo ∧
     t.removeDecodedTile.getResourceInfo.1 = t.removeDecodedTile.computeResourceInfo ∧
     t.clear.getResourceInfo.1 = t.clear.computeResourceInfo) := by
  have h1 : (t.setDecodedTile d).m_resourceInfo = none := by
    cases hb : d.boundingBox <;>
      simp [Tile.setDecodedTile, Tile.invalidateResourceInfo, hb]
  have h2 : t.removeDecodedTile.m_resourceInfo = none := by
    simp [Tile.removeDecodedTile, Tile.invalidateResourceInfo]
  have h3 : t.clear.m_resourceInfo = none := by
    simp [Tile.clear]
  exact ⟨⟨h1, h2, h3⟩,
    getResourceInfo_of_invalidated _ h1,
    getResourceInfo_of_invalidated _ h2,
    getResourceInfo_of_invalidated _ h3⟩

/-- C5: during `clear()`/`dispose()`, a texture found among a material's
properties is disposed iff it was registered via `addOwnedTexture`; a
texture never registered with the tile is never disposed by it, even when
reachable from the tile's objects. -/
theorem C5_texture_ownership (t : Tile) (x : Nat) :
    (x ∈ t.clearTextureDisposals ↔ x ∈ t.m_ownedTextures ∧ x ∈ t.reachableTextures) ∧
    (x ∉ t.m_ownedTextures → x ∉ t.disposeTextureDisposals) := by
  refine ⟨mem_clearTextureDisposals t x, fun hown hmem => ?_⟩
  unfold Tile.disposeTextureDisposals at hmem
  split at hmem
  · simp at hmem
  · exact hown ((mem_clearTextureDisposals t x).1 hmem).1

/-- Witness for C5 on a tile owning texture 3 but not texture 4, both
sitting in its object's material: clearing disposes 3 and never 4. -/
theorem C5_witness :
    3 ∈ tileC5.clearTextureDisposals ∧ 4 ∉ tileC5.disposeTextureDisposals :=
  ⟨(C5_texture_ownership tileC5 3).1.2 ⟨by decide, by decide⟩,
   (C5_texture_ownership tileC5 4).2 (by decide)⟩

/-- C6: `setDecodedTile` refines the bounding box iff the decoded tile
carries one: without a decoded box the tile's box is left unchanged (on a
fresh tile it stays the geo-derived `projectBox geoBox`), with one the
tile's box becomes the decoded box; in both cases the decoded-content
reference afterwards is the given decoded tile. -/
theorem C6_setDecodedTile_boundingBox (projectBox : Nat → Nat) (geoBox : Nat)
    (t : Tile) (D : DecodedTile) :
    ((t.setDecodedTile D).boundingBox =
       match D.boundingBox with
       | some b => b
       | none => t.boundingBox) ∧
    (((Tile.new projectBox geoBox).setDecodedTile D).boundingBox =
       match D.boundingBox with
       | some b => b
       | none => projectBox geoBox) ∧
    (t.setDecodedTile D).m_decodedTile = some D := by
  cases hb : D.boundingBox <;>
    simp [Tile.setDecodedTile, Tile.invalidateResourceInfo, Tile.new, hb]

/-- C7: with no geometry loader attached, `forceHasGeometry(true)` makes
`hasGeometry`, `basicGeometryLoaded` and `allGeometryLoaded` all true even
with zero owned objects; with the force flag unset and no loader, all
three equal "the object sequence is non-empty". -/
theorem C7_forceHasGeometry (t : Tile) (h : t.m_tileGeometryLoader = none) :
    ((t.forceHasGeometry true).hasGeometry = true ∧
     (t.forceHasGeometry true).basicGeometryLoaded = true ∧
     (t.forceHasGeometry true).allGeometryLoaded = true) ∧
    (t.m_forceHasGeometry = none →
      (t.hasGeometry = !t.objects.isEmpty ∧
       t.basicGeometryLoaded = !t.objects.isEmpty ∧
       t.allGeometryLoaded = !t.objects.isEmpty)) := by
  constructor
  · simp [Tile.forceHasGeometry, Tile.setDecodedTile, Tile.invalidateResourceInfo,
      defaultEmptyDecodedTile, Tile.hasGeometry, Tile.basicGeometryLoaded,
      Tile.allGeometryLoaded, h]
  · intro hf
    cases ho : t.objects <;>
      simp [Tile.hasGeometry, Tile.basicGeometryLoaded, Tile.allGeometryLoaded,
        h, hf, ho]

/-- Witness for C7 on the fresh empty tile: forced geometry reports all
three flags true with zero objects, and unforced it has no geometry. -/
theorem C7_witness :
    (sampleTile.forceHasGeometry true).hasGeometry = true ∧
    (sampleTile.forceHasGeometry true).basicGeometryLoaded = true ∧
    (sampleTile.forceHasGeometry true).allGeometryLoaded = true ∧
    sampleTile.hasGeometry = false :=
  ⟨(C7_forceHasGeometry sampleTile rfl).1.1,
   (C7_forceHasGeometry sampleTile rfl).1.2.1,
   (C7_forceHasGeometry sampleTile rfl).1.2.2,
   by simpa [sampleTile, Tile.new] using ((C7_forceHasGeometry sampleTile rfl).2 rfl).1⟩

/-- C8: a road-intersection record with `n` technique-index entries
contributes `100 + n * (8 + 8 + 8 + 8 + 100)` heap bytes, plus `n * 8`
when `ids` is populated and `n * 16` when `objInfos` is populated, and
`computeResourceInfo` adds exactly this amount when road data is
present. -/
theorem C8_roadIntersectionDataSize (r : RoadIntersectionData) (t : Tile) :
    getRoadIntersectionDataSize r =
      100 + r.techniqueIndex.length * (8 + 8 + 8 + 8 + 100) +
        (if r.ids.isSome then r.techniqueIndex.length * 8 else 0) +
        (if r.objInfos.isSome then r.techniqueIndex.length * 16 else 0) ∧
    (Tile.computeResourceInfo { t with roadIntersectionData := some r }).heapSize =
      (Tile.computeResourceInfo { t with roadIntersectionData := none }).heapSize +
        getRoadIntersectionDataSize r := by
  constructor
  · cases hi : r.ids <;> cases ho : r.objInfos <;>
      simp [getRoadIntersectionDataSize, MINIMUM_OBJECT_SIZE_ESTIMATION,
        MINIMUM_SMALL_OBJECT_SIZE_ESTIMATION, hi, ho] <;> omega
  · simp only [Tile.computeResourceInfo]
    omega

/-- C9: removing a data-driven label whose priority was mutated after
insertion (and which sits in no bucket of its new priority) returns
`false` and leaves the tile — grouped collection and changed flag —
exactly as it was. -/
theorem C9_removeTextElement_stale (t : Tile) (e eMut : TextElement)
    (hid : eMut.id = e.id) (hpr : eMut.priority ≠ e.priority)
    (hfresh : ∀ ids, findGroup t.m_textElementGroups.groups eMut.priority = some ids →
      eMut.id ∉ ids) :
    (t.addTextElement e).removeTextElement eMut = (t.addTextElement e, false) := by
  have hfind : findGroup (addToGroups t.m_textElementGroups.groups e.priority e.id)
      eMut.priority = findGroup t.m_textElementGroups.groups eMut.priority :=
    findGroup_addToGroups_ne _ _ _ _ hpr
  have hrm : removeFromGroups (addToGroups t.m_textElementGroups.groups e.priority e.id)
      eMut.priority eMut.id =
      (false, addToGroups t.m_textElementGroups.groups e.priority e.id) :=
    removeFromGroups_not_found _ _ _ (fun ids hids => hfresh ids (hfind ▸ hids))
  simp [Tile.removeTextElement, Tile.addTextElement, GroupedPriorityList.remove,
    GroupedPriorityList.add, hrm]

/-- Witness for C9: element 1 added at priority 5, presented for removal
with mutated priority 7 — removal fails and the tile is unchanged. -/
theorem C9_witness :
    (sampleTile.addTextElement ⟨1, 5⟩).removeTextElement ⟨1, 7⟩ =
      (sampleTile.addTextElement ⟨1, 5⟩, false) :=
  C9_removeTextElement_stale sampleTile ⟨1, 5⟩ ⟨1, 7⟩ rfl (by decide)
    (fun ids hids => by simp [sampleTile, Tile.new, findGroup] at hids)

/-- C10: the recomputed ledger counts only top-level objects whose
`visible` flag is true (`k - m` of `k` objects with `m` invisible), while
the GPU estimate still accumulates over every object regardless of
visibility. -/
theorem C10_num3dObjects_visible (t : Tile) :
    t.computeResourceInfo.num3dObjects =
      t.objects.length - (t.objects.filter (fun o => !o.visible)).length ∧
    t.computeResourceInfo.gpuSize = (t.objects.map TObj.estGpuSize).sum := by
  have h := length_filter_visible t.objects
  constructor
  · simp only [Tile.computeResourceInfo]
    omega
  · simp [Tile.computeResourceInfo]
